import Mathlib

/-
Verification of the client mapping/caching core (client/nar/base.py):
JSON-like values, the OntologyTerm codec, the cardinality normalizer
build_kg_object, the as_list helper, the identity cache with its
caching factory decorator, KGProxy and KGQuery resolution, and the
KGObject exists and _save protocol.
-/

namespace Nar

/-- Embedding of the Python/JSON values the library handles: null, integers,
strings, lists and string-keyed dicts (association lists, in key order). -/
inductive JVal where
  | null : JVal
  | int : Int → JVal
  | str : String → JVal
  | arr : List JVal → JVal
  | obj : List (String × JVal) → JVal

/-- Embedding of dict key lookup, d[key] / key in d, first match wins. -/
def lookupKey : List (String × JVal) → String → Option JVal
  | [], _ => none
  | (k, v) :: rest, key => if k = key then some v else lookupKey rest key

/-- Python truthiness of a value: None, 0, empty string, empty list and
empty dict are falsy, everything else is truthy. -/
def pyTruthy : JVal → Bool
  | .null => false
  | .int n => n != 0
  | .str s => !s.isEmpty
  | .arr l => !l.isEmpty
  | .obj kvs => !kvs.isEmpty

/-- Kinds of Python errors raised by the embedded code. -/
inductive PyError where
  | typeError (msg : String) : PyError
  | valueError (msg : String) : PyError
  | keyError (key : String) : PyError
  | assertionError : PyError
  deriving DecidableEq, Repr

/-- Embedding of the builtin list(v) conversion: lists convert to themselves,
a string to the list of its one-character strings, a dict to the list of its
keys; null and integers are not iterable and raise a TypeError. -/
def listBuiltin (v : JVal) : Except PyError (List JVal) :=
  match v with
  | .arr l => .ok l
  | .str s => .ok (s.data.map (fun c => .str (String.mk [c])))
  | .obj kvs => .ok (kvs.map (fun kv => .str kv.1))
  | .null => .error (.typeError "NoneType object is not iterable")
  | .int _ => .error (.typeError "int object is not iterable")

/-- Whether list(v) succeeds, i.e. v is iterable. -/
def pyIterable : JVal → Bool
  | .arr _ => true
  | .str _ => true
  | .obj _ => true
  | .null => false
  | .int _ => false

/-- Embedding of as_list (base.py lines 249 to 254): try list(obj), and on a
TypeError fall back to the one-element list. -/
def as_list (v : JVal) : List JVal :=
  match listBuiltin v with
  | .ok l => l
  | .error _ => [v]

/-- Embedding of the OntologyTerm value: the label and iri attributes, kept as
raw values exactly as the constructor assigns them. -/
structure OntologyTerm where
  label : JVal
  iri : JVal

/-- Embedding of OntologyTerm construction (base.py lines 133 to 135):
self.label is the label argument, and self.iri is the Python expression
iri or self.iri_map[label], so a falsy iri (None or the empty string) falls
back to the label-to-iri table of the concrete subtype, which raises a
KeyError for an unknown label. The table is a parameter, standing for the
iri_map class attribute of the concrete subtype. -/
def OntologyTerm.init (iriMap : List (String × JVal)) (label : JVal) (iri : JVal) :
    Except PyError OntologyTerm :=
  if pyTruthy iri then .ok ⟨label, iri⟩
  else
    match label with
    | .str s =>
      match lookupKey iriMap s with
      | some v => .ok ⟨label, v⟩
      | none => .error (.keyError s)
    | _ => .error (.typeError "unhashable or unknown label key")

/-- Embedding of OntologyTerm.to_jsonld (base.py lines 143 to 145). -/
def OntologyTerm.to_jsonld (t : OntologyTerm) : JVal :=
  .obj [("@id", t.iri), ("label", t.label)]

/-- Embedding of OntologyTerm.from_jsonld (base.py lines 147 to 151): None
maps to None, otherwise the constructor is applied to data of label and of
the at-id key, in that evaluation order for key errors. -/
def OntologyTerm.from_jsonld (iriMap : List (String × JVal)) (data : JVal) :
    Except PyError (Option OntologyTerm) :=
  match data with
  | .null => .ok none
  | .obj kvs =>
    match lookupKey kvs "label" with
    | none => .error (.keyError "label")
    | some l =>
      match lookupKey kvs "@id" with
      | none => .error (.keyError "@id")
      | some i => (OntologyTerm.init iriMap l i).map some
  | _ => .error (.typeError "value is not subscriptable")

/-- Embedding of iteration over a Python value, for item in data: a list
yields its items, a string its one-character strings, a dict its keys;
anything else raises a TypeError. -/
def pyIterate (v : JVal) : Except PyError (List JVal) :=
  match v with
  | .arr l => .ok l
  | .str s => .ok (s.data.map (fun c => .str (String.mk [c])))
  | .obj kvs => .ok (kvs.map (fun kv => .str kv.1))
  | _ => .error (.typeError "object is not iterable")

/-- The class argument of build_kg_object, by the only property the function
inspects: whether it is an OntologyTerm subclass (carrying its iri_map), a
KGObject subclass, or neither. -/
inductive ClsKind where
  | ontologyTermCls (iriMap : List (String × JVal)) : ClsKind
  | kgObjectCls : ClsKind
  | otherCls : ClsKind

/-- One element of the list built by build_kg_object: either a decoded
ontology term (possibly None), or an unresolved KGProxy holding the raw
at-id value of the item (the class of the proxy is the cls argument,
fixed for the whole call, so it is not repeated here). -/
inductive BuildItem where
  | term : Option OntologyTerm → BuildItem
  | proxy : JVal → BuildItem

/-- The value build_kg_object returns: Python None, a single object, or a
list of objects. -/
inductive BuildOut where
  | nothing : BuildOut
  | one : BuildItem → BuildOut
  | many : List BuildItem → BuildOut

/-- Embedding of the per-item conversion in the loop of build_kg_object
(base.py lines 234 to 241): an OntologyTerm subclass decodes the item via
from_jsonld, a KGObject subclass wraps the at-id entry of the item in a
KGProxy, and any other class raises a ValueError. -/
def convertItem (cls : ClsKind) (item : JVal) : Except PyError BuildItem :=
  match cls with
  | .ontologyTermCls iriMap => (OntologyTerm.from_jsonld iriMap item).map BuildItem.term
  | .kgObjectCls =>
    match item with
    | .obj kvs =>
      match lookupKey kvs "@id" with
      | some v => .ok (.proxy v)
      | none => .error (.keyError "@id")
    | _ => .error (.typeError "item is not subscriptable")
  | .otherCls => .error (.valueError "cls must be a KGObject or OntologyTerm")

/-- The object-accumulating loop of build_kg_object (base.py lines 233 to
241): convert every item in order, raising at the first failing item. -/
def convertAll (cls : ClsKind) : List JVal → Except PyError (List BuildItem)
  | [] => .ok []
  | item :: rest =>
    match convertItem cls item with
    | .error e => .error e
    | .ok o => (convertAll cls rest).map (fun os => o :: os)

/-- Embedding of the tail of build_kg_object (base.py lines 233 to 246):
convert every item in order, then collapse a one-element result to the bare
object. -/
def buildItems (cls : ClsKind) (items : List JVal) : Except PyError BuildOut :=
  (convertAll cls items).map fun objs =>
    match objs with
    | [o] => .one o
    | os => .many os

/-- Embedding of build_kg_object (base.py lines 211 to 246). None returns
None; a non-list non-dict input raises a ValueError; a dict containing the
at-list key is asserted to have exactly that one key and is unwrapped to the
inner value, which is then iterated; a plain dict becomes a one-element
list; finally every item is converted according to cls and a singleton
result is collapsed. -/
def build_kg_object (cls : ClsKind) (data : JVal) : Except PyError BuildOut :=
  match data with
  | .null => .ok .nothing
  | .arr l => buildItems cls l
  | .obj kvs =>
    match lookupKey kvs "@list" with
    | some inner =>
      if kvs.length = 1 then
        match pyIterate inner with
        | .ok items => buildItems cls items
        | .error e => .error e
      else .error .assertionError
    | none => buildItems cls [.obj kvs]
  | _ => .error (.valueError "data must be a list or dict")

/-- Raw instance as returned by the transport: the at-id value of its
document and a revision counter standing for the rest of the document
(nxv:rev). -/
structure Instance where
  id : String
  rev : Nat
  deriving DecidableEq, Repr

/-- Embedding of a KGObject in memory: ref is the allocation identity of the
Python object (two objects are the same in-memory instance exactly when their
ref is equal); id, inst, name and props are the id, instance, name and
keyword-property attributes; path is the class-level path attribute. -/
structure Obj where
  ref : Nat
  id : Option String
  inst : Option Instance
  name : String
  path : String
  props : List (String × JVal)

/-- Truthiness of the id attribute, as tested by the code with if self.id:
None and the empty string are falsy. -/
def idTruthy : Option String → Bool
  | none => false
  | some s => !s.isEmpty

/-- The identity cache KGObject.cache: a dict from keys (normally identifier
strings; None is a legal dict key in Python, hence Option String) to objects.
Represented as an association list where the most recent binding wins, which
is exactly dict assignment semantics. -/
abbrev Cache := List (Option String × Obj)

/-- Dict lookup in the identity cache. -/
def cacheFind : Cache → Option String → Option Obj
  | [], _ => none
  | (k, v) :: rest, key => if k = key then some v else cacheFind rest key

/-- Dict assignment in the identity cache. -/
def cacheInsert (c : Cache) (k : Option String) (v : Obj) : Cache :=
  (k, v) :: c

/-- Process state shared by all operations: the identity cache plus an
allocation counter supplying fresh in-memory identities. -/
structure World where
  cache : Cache
  nextRef : Nat

/-- The filter dict passed to client.filter_query, with its path, op and
value entries. -/
structure QueryFilter where
  path : String
  op : String
  value : String
  deriving DecidableEq, Repr

/-- The context value built by KGObject.exists (base.py line 74). In the
source the trailing comma makes it a one-tuple containing the dict; the
payload is opaque to this layer, so it is modelled as the dict itself. -/
def schemaContext : List (String × String) := [("schema", "http://schema.org/")]

/-- One call made to the transport collaborator, recorded so that theorems
can count create, update and query calls. Data is the type of the outgoing
document built by the concrete subclass, opaque to the base layer. -/
inductive Event (Data : Type) where
  | filterQueryCall (path : String) (filter : QueryFilter)
      (context : List (String × String)) : Event Data
  | createCall (path : String) (data : Data) : Event Data
  | updateCall (inst : Option Instance) : Event Data
  deriving DecidableEq, Repr

/-- The abstract transport collaborator, as pure response functions: what
filter_query, create_new_instance, update_instance and
instance_from_full_uri return. -/
structure Client (Data : Type) where
  filterQuery : String → QueryFilter → List (String × String) → List Instance
  createNewInstance : String → Data → Instance
  updateInstance : Option Instance → Instance
  instanceFromFullUri : String → Instance

/-- Number of create calls in an event list. -/
def createCount {Data : Type} (evs : List (Event Data)) : Nat :=
  (evs.filter fun e => match e with | .createCall _ _ => true | _ => false).length

/-- Embedding of KGObject.exists (base.py lines 67 to 83). If self.id is
truthy, return True with no transport call. Otherwise issue the name-based
filter query; if the response is non-empty, set self.id to the at-id of the
first response element and return True, else return False. Returns the
boolean, the object state after the call, and the transport calls made. -/
def KGObject.exists {Data : Type} (client : Client Data) (o : Obj) :
    Bool × Obj × List (Event Data) :=
  if idTruthy o.id then (true, o, [])
  else
    let qf : QueryFilter := { path := "schema:name", op := "eq", value := o.name }
    let response := client.filterQuery o.path qf schemaContext
    match response with
    | [] => (false, o, [.filterQueryCall o.path qf schemaContext])
    | r :: _ => (true, { o with id := some r.id }, [.filterQueryCall o.path qf schemaContext])

/-- The exception KGObject._save can raise (errors.py ResourceExistsError). -/
inductive SaveError where
  | resourceExistsError : SaveError
  deriving DecidableEq, Repr

/-- Outcome of a _save call: the exception raised, if any, together with the
state the mutated object, the identity cache and the transport log are left
in (a Python raise does not undo prior attribute assignments). -/
structure SaveResult (Data : Type) where
  error : Option SaveError
  obj : Obj
  cache : Cache
  events : List (Event Data)

/-- Embedding of KGObject._save (base.py lines 85 to 101). If self.id is
truthy, push an update and store the returned instance. Otherwise run
exists; on True either return (exists_ok) or raise ResourceExistsError; on
False create a new instance, adopt its at-id, store the instance, and put
self into the identity cache under the new id. -/
def KGObject._save {Data : Type} (data : Data) (client : Client Data)
    (exists_ok : Bool) (o : Obj) (c : Cache) : SaveResult Data :=
  if idTruthy o.id then
    let inst := client.updateInstance o.inst
    { error := none, obj := { o with inst := some inst }, cache := c,
      events := [.updateCall o.inst] }
  else
    let ex := KGObject.exists client o
    if ex.1 then
      if exists_ok then
        { error := none, obj := ex.2.1, cache := c, events := ex.2.2 }
      else
        { error := some .resourceExistsError, obj := ex.2.1, cache := c, events := ex.2.2 }
    else
      let inst := client.createNewInstance o.path data
      let o2 := { ex.2.1 with id := some inst.id, inst := some inst }
      { error := none, obj := o2, cache := cacheInsert c (some inst.id) o2,
        events := ex.2.2 ++ [.createCall o.path data] }

/-- Embedding of the cache decorator (base.py lines 115 to 127), wrapping a
from_kg_instance factory f: if the at-id of the raw instance is a key of the
identity cache, return the cached object with no state change; otherwise run
f and insert the resulting object under its own id attribute. -/
def cacheWrap (f : Instance → World → Obj × World) (inst : Instance) (w : World) :
    Obj × World :=
  match cacheFind w.cache (some inst.id) with
  | some obj => (obj, w)
  | none =>
    let r := f inst w
    (r.1, { r.2 with cache := cacheInsert r.2.cache r.1.id r.1 })

/-- Model of the body of a concrete from_kg_instance factory (the pattern of
every subclass, e.g. brainsimulation.py lines 68 to 98): allocate a fresh
object whose id is the document at-id and whose instance is the raw
instance. -/
def from_kg_instance (inst : Instance) (w : World) : Obj × World :=
  ({ ref := w.nextRef, id := some inst.id, inst := some inst,
     name := "", path := "", props := [] },
   { w with nextRef := w.nextRef + 1 })

/-- Embedding of KGObject.from_uri (base.py lines 57 to 60): fetch the raw
instance for the uri and hand it to the class factory (which for every
concrete class is the cache-wrapped from_kg_instance). -/
def KGObject.from_uri {Data : Type} (factory : Instance → World → Obj × World)
    (client : Client Data) (uri : String) (w : World) : Obj × World :=
  factory (client.instanceFromFullUri uri) w

/-- Embedding of a KGProxy: the class reference (by registry name) and the
uri it stands for. -/
structure KGProxy where
  clsName : String
  id : String

/-- Embedding of KGProxy.resolve (base.py lines 168 to 175): a cache hit on
self.id returns the cached object unchanged; otherwise the object is loaded
through the class's from_uri factory, cached under self.id, and returned. -/
def KGProxy.resolve (fromUri : String → World → Obj × World) (p : KGProxy)
    (w : World) : Obj × World :=
  match cacheFind w.cache (some p.id) with
  | some obj => (obj, w)
  | none =>
    let r := fromUri p.id w
    (r.1, { r.2 with cache := cacheInsert r.2.cache (some p.id) r.1 })

/-- Embedding of a KGQuery: the path of the referenced class, the filter and
the context. -/
structure KGQuery where
  clsPath : String
  filter : QueryFilter
  context : List (String × String)

/-- Result of KGQuery.resolve: a bare object when exactly one instance
matched, otherwise the whole list. -/
inductive QueryResult where
  | single : Obj → QueryResult
  | several : List Obj → QueryResult

/-- Threading a factory over a list of raw instances in order, as the list
comprehension in KGQuery.resolve does. -/
def mapFactory (factory : Instance → World → Obj × World) :
    List Instance → World → List Obj × World
  | [], w => ([], w)
  | i :: rest, w =>
    let r := factory i w
    let rs := mapFactory factory rest r.2
    (r.1 :: rs.1, rs.2)

/-- Embedding of KGQuery.resolve (base.py lines 195 to 208): one filter
query, every raw instance mapped through the class factory, every resulting
object assigned into the identity cache under its id, and the singleton
result collapsed to the bare object. The empty branch of the inner match is
unreachable because the objects list has the same length as the instances
list. -/
def KGQuery.resolve {Data : Type} (factory : Instance → World → Obj × World)
    (client : Client Data) (q : KGQuery) (w : World) :
    QueryResult × World × List (Event Data) :=
  let instances := client.filterQuery q.clsPath q.filter q.context
  let mapped := mapFactory factory instances w
  let w2 := { mapped.2 with
              cache := mapped.1.foldl (fun c o => cacheInsert c o.id o) mapped.2.cache }
  let res :=
    if instances.length = 1 then
      match mapped.1 with
      | o :: _ => QueryResult.single o
      | [] => QueryResult.several []
    else QueryResult.several mapped.1
  (res, w2, [.filterQueryCall q.clsPath q.filter q.context])

/-- Embedding of the keyword-property loop of KGObject.init (base.py
lines 41 to 45): walk the properties in order; the first key not among the
declared property names raises a TypeError, a declared key is kept as a set
attribute. -/
def checkProperties (property_names : List String) :
    List (String × JVal) → Except PyError (List (String × JVal))
  | [] => .ok []
  | (k, v) :: rest =>
    if property_names.contains k then
      (checkProperties property_names rest).map (fun ps => (k, v) :: ps)
    else .error (.typeError ("got an unexpected keyword argument " ++ k))

/-- Embedding of KGObject construction (base.py lines 40 to 47): validate
and set the keyword properties, then set id and instance. The name attribute
of the resulting object is the name property when one was passed. -/
def KGObject.init (ref : Nat) (property_names : List String) (id : Option String)
    (inst : Option Instance) (properties : List (String × JVal)) :
    Except PyError Obj :=
  (checkProperties property_names properties).map fun ps =>
    { ref := ref, id := id, inst := inst,
      name := match lookupKey ps "name" with | some (.str s) => s | _ => "",
      path := "", props := ps }

/-- KGObject construction threaded through the process state: the allocation
counter advances (an object is allocated before init runs), and the identity
cache is never touched by construction, whether it succeeds or raises. -/
def KGObject.initW (property_names : List String) (id : Option String)
    (inst : Option Instance) (properties : List (String × JVal)) (w : World) :
    Except PyError Obj × World :=
  (KGObject.init w.nextRef property_names id inst properties,
   { w with nextRef := w.nextRef + 1 })

/-- Well-formedness of the identity cache: every reachable binding maps a
key to an object whose id attribute is that key. Every insertion performed
by _save, by the cache decorator and by query resolution preserves this. -/
def cacheWF (c : Cache) : Prop :=
  ∀ k o, cacheFind c k = some o → o.id = k

/-- C10: as_list returns the list conversion of its argument when the
argument is iterable, and the one-element list holding the argument when it
is not; in particular a string argument is exploded into the list of its
one-character strings rather than wrapped. -/
theorem c10_as_list (v : JVal) (s : String) :
    (pyIterable v = true → Except.ok (as_list v) = listBuiltin v) ∧
    (pyIterable v = false → as_list v = [v]) ∧
    as_list (.str s) = s.data.map (fun c => .str (String.mk [c])) ∧
    as_list (.str "ab") = [.str "a", .str "b"] := by
  refine ⟨?_, ?_, rfl, ?_⟩
  · intro h; cases v <;> simp_all [pyIterable, as_list, listBuiltin]
  · intro h; cases v <;> simp_all [pyIterable, as_list, listBuiltin]
  · show as_list (.str "ab") = [.str "a", .str "b"]
    rfl

/-- C10 witness: the theorem applied at a concrete iterable and a concrete
non-iterable input. -/
theorem c10_witness :
    Except.ok (as_list (JVal.arr [JVal.int 1])) = listBuiltin (JVal.arr [JVal.int 1]) ∧
    as_list JVal.null = [JVal.null] :=
  ⟨(c10_as_list (JVal.arr [JVal.int 1]) "").1 rfl,
   (c10_as_list JVal.null "").2.1 rfl⟩

/-- C8 (amended): from_jsonld maps null to None; and for every well-formed
encoded mapping, with a label entry and an at-id entry whose value is
truthy, decoding then encoding reproduces exactly the original two fields.
The truthiness condition is forced: a falsy at-id (None or the empty
string) makes the constructor fall back to the label-to-iri table. -/
theorem c8_ontology_term_roundtrip (iriMap kvs : List (String × JVal)) (l i : JVal)
    (hl : lookupKey kvs "label" = some l) (hi : lookupKey kvs "@id" = some i)
    (ht : pyTruthy i = true) :
    OntologyTerm.from_jsonld iriMap JVal.null = .ok none ∧
    (OntologyTerm.from_jsonld iriMap (.obj kvs)).map (Option.map OntologyTerm.to_jsonld)
      = .ok (some (.obj [("@id", i), ("label", l)])) := by
  refine ⟨rfl, ?_⟩
  simp [OntologyTerm.from_jsonld, hl, hi, OntologyTerm.init, ht,
        OntologyTerm.to_jsonld, Except.map]

/-- C8 witness: the roundtrip theorem applied at a concrete well-formed
encoded value. -/
theorem c8_witness :
    (OntologyTerm.from_jsonld [] (.obj [("label", .str "x"), ("@id", .str "urn:a")])).map
        (Option.map OntologyTerm.to_jsonld)
      = .ok (some (.obj [("@id", .str "urn:a"), ("label", .str "x")])) :=
  (c8_ontology_term_roundtrip [] [("label", .str "x"), ("@id", .str "urn:a")]
    (.str "x") (.str "urn:a") rfl rfl rfl).2

/-- C8 counterexample: a mapping holding a label entry and an at-id entry
is well-formed in the sense of the claim, yet with the empty string as
at-id the decode raises a KeyError (the empty string is falsy, so the
constructor consults the label-to-iri table, here empty), so decode
followed by encode does not reproduce the original two fields. -/
theorem c8_counterexample :
    OntologyTerm.from_jsonld [] (.obj [("label", .str "x"), ("@id", .str "")])
      = .error (.keyError "x") ∧
    (OntologyTerm.from_jsonld [] (.obj [("label", .str "x"), ("@id", .str "")])).map
        (Option.map OntologyTerm.to_jsonld)
      ≠ .ok (some (.obj [("@id", .str ""), ("label", .str "x")])) := by
  refine ⟨rfl, ?_⟩
  intro h
  rw [show OntologyTerm.from_jsonld [] (.obj [("label", .str "x"), ("@id", .str "")])
        = .error (.keyError "x") from rfl] at h
  exact Except.noConfusion h

/-- C7 (amended): build_kg_object maps null to None whatever the class; for
a reference class, one mapping entry gives a single proxy, two entries give
a two-element list of proxies, and a list-wrapper holding one entry gives
the same result as the bare entry; a non-mapping non-sequence non-null
input raises a ValueError whatever the class; and a class that is neither
kind raises a ValueError as soon as one entry is converted, a mapping entry
or a non-empty sequence alike. (The empty sequence is the one carve-out:
it yields the empty list without touching the class, see the
counterexample.) -/
theorem c7_build_kg_object (cls : ClsKind) (kvs kvs1 kvs2 : List (String × JVal))
    (v v1 v2 : JVal)
    (h1 : lookupKey kvs "@id" = some v) (h2 : lookupKey kvs "@list" = none)
    (h3 : lookupKey kvs1 "@id" = some v1) (h4 : lookupKey kvs2 "@id" = some v2) :
    build_kg_object cls .null = .ok .nothing ∧
    build_kg_object .kgObjectCls (.obj kvs) = .ok (.one (.proxy v)) ∧
    build_kg_object .kgObjectCls (.arr [.obj kvs1, .obj kvs2])
      = .ok (.many [.proxy v1, .proxy v2]) ∧
    build_kg_object .kgObjectCls (.obj [("@list", .arr [.obj kvs])])
      = build_kg_object .kgObjectCls (.obj kvs) ∧
    (∀ s, build_kg_object cls (.str s) = .error (.valueError "data must be a list or dict")) ∧
    (∀ n, build_kg_object cls (.int n) = .error (.valueError "data must be a list or dict")) ∧
    (∀ x xs, build_kg_object .otherCls (.arr (x :: xs))
      = .error (.valueError "cls must be a KGObject or OntologyTerm")) ∧
    build_kg_object .otherCls (.obj kvs)
      = .error (.valueError "cls must be a KGObject or OntologyTerm") := by
  refine ⟨?_, ?_, ?_, ?_, ?_, ?_, ?_, ?_⟩
  · cases cls <;> rfl
  · simp [build_kg_object, h2, buildItems, convertAll, convertItem, h1, Except.map]
  · simp [build_kg_object, buildItems, convertAll, convertItem, h3, h4, Except.map]
  · simp [build_kg_object, h2, lookupKey, pyIterate, buildItems, convertAll,
          convertItem, h1, Except.map]
  · intro s; cases cls <;> rfl
  · intro n; cases cls <;> rfl
  · intro x xs; simp [build_kg_object, buildItems, convertAll, convertItem, Except.map]
  · simp [build_kg_object, h2, buildItems, convertAll, convertItem, Except.map]

/-- C7 witness: the amended theorem applied at concrete entries. -/
theorem c7_witness :
    build_kg_object .kgObjectCls (.obj [("@id", .str "u1")]) = .ok (.one (.proxy (.str "u1"))) ∧
    build_kg_object .kgObjectCls
        (.arr [.obj [("@id", .str "u1")], .obj [("@id", .str "u2")]])
      = .ok (.many [.proxy (.str "u1"), .proxy (.str "u2")]) ∧
    build_kg_object .kgObjectCls (.obj [("@list", .arr [.obj [("@id", .str "u1")]])])
      = build_kg_object .kgObjectCls (.obj [("@id", .str "u1")]) := by
  have h := c7_build_kg_object ClsKind.otherCls
    [("@id", .str "u1")] [("@id", .str "u1")] [("@id", .str "u2")]
    (.str "u1") (.str "u1") (.str "u2") rfl rfl rfl rfl
  exact ⟨h.2.1, h.2.2.1, h.2.2.2.1⟩

/-- C7 counterexample: with a class that is neither an OntologyTerm nor a
KGObject subclass and the empty sequence as input, build_kg_object returns
the empty list without raising, refuting the clause that such a class always
fails with a type-error-kind error. -/
theorem c7_counterexample :
    build_kg_object ClsKind.otherCls (.arr []) = .ok (.many []) ∧
    ∀ e, build_kg_object ClsKind.otherCls (.arr []) ≠ .error e := by
  refine ⟨rfl, ?_⟩
  intro e h
  rw [show build_kg_object ClsKind.otherCls (.arr []) = .ok (.many []) from rfl] at h
  exact Except.noConfusion h

/-- C5: the caching factory wrapper first looks the instance at-id up in the
identity cache; on a hit it returns the cached object with the state
unchanged, for every wrapped factory alike (so the wrapped constructor is
not consulted); on a miss it runs the wrapped factory, returns its object,
and makes that object the cached binding for the object's id. -/
theorem c5_cache_wrapper (w : World) (i : Instance) (o : Obj)
    (f : Instance → World → Obj × World) :
    (cacheFind w.cache (some i.id) = some o → cacheWrap f i w = (o, w)) ∧
    (cacheFind w.cache (some i.id) = none →
      (cacheWrap f i w).1 = (f i w).1 ∧
      cacheFind (cacheWrap f i w).2.cache (f i w).1.id = some (f i w).1) := by
  constructor
  · intro h; simp [cacheWrap, h]
  · intro h; simp [cacheWrap, h, cacheFind, cacheInsert]

/-- C5 witness: the wrapper theorem applied on a concrete hit and a concrete
miss. -/
theorem c5_witness :
    cacheWrap from_kg_instance ⟨"X", 0⟩
        ⟨[(some "X", { ref := 7, id := some "X", inst := none, name := "", path := "",
                       props := [] })], 3⟩
      = ({ ref := 7, id := some "X", inst := none, name := "", path := "", props := [] },
         ⟨[(some "X", { ref := 7, id := some "X", inst := none, name := "", path := "",
                        props := [] })], 3⟩) ∧
    (cacheWrap from_kg_instance ⟨"Y", 0⟩ ⟨[], 3⟩).1 = (from_kg_instance ⟨"Y", 0⟩ ⟨[], 3⟩).1 :=
  ⟨(c5_cache_wrapper _ _ _ from_kg_instance).1 rfl,
   ((c5_cache_wrapper ⟨[], 3⟩ ⟨"Y", 0⟩
       { ref := 0, id := none, inst := none, name := "", path := "", props := [] }
       from_kg_instance).2 rfl).1⟩

/-- Helper for C9: the keyword-property loop raises a TypeError whenever
some passed key is not among the declared property names. -/
theorem checkProperties_error (pn : List String) (ps : List (String × JVal))
    (k : String) (v : JVal) (hk : (k, v) ∈ ps) (hbad : pn.contains k = false) :
    ∃ m, checkProperties pn ps = .error (.typeError m) := by
  induction ps with
  | nil => cases hk
  | cons hd tl ih =>
    obtain ⟨k1, v1⟩ := hd
    by_cases hc : pn.contains k1 = true
    · rcases List.mem_cons.mp hk with heq | htl
      · cases heq
        rw [hc] at hbad
        exact Bool.noConfusion hbad
      · obtain ⟨m, hm⟩ := ih htl
        refine ⟨m, ?_⟩
        simp only [checkProperties]
        rw [if_pos hc, hm]
        rfl
    · refine ⟨"got an unexpected keyword argument " ++ k1, ?_⟩
      simp only [checkProperties]
      rw [if_neg hc]

/-- C9: constructing a KGObject with a keyword property whose name the
concrete type does not declare raises a TypeError (the ArgumentError kind),
and construction touches the identity cache in no case, so nothing is
retained there. -/
theorem c9_init_unknown_property (property_names : List String) (id : Option String)
    (inst : Option Instance) (properties : List (String × JVal)) (w : World)
    (k : String) (v : JVal)
    (hk : (k, v) ∈ properties) (hbad : property_names.contains k = false) :
    (∃ m, (KGObject.initW property_names id inst properties w).1
      = .error (.typeError m)) ∧
    (KGObject.initW property_names id inst properties w).2.cache = w.cache := by
  obtain ⟨m, hm⟩ := checkProperties_error property_names properties k v hk hbad
  exact ⟨⟨m, by simp [KGObject.initW, KGObject.init, hm, Except.map]⟩, rfl⟩

/-- C9 witness: the construction theorem applied at a concrete misspelled
property. -/
theorem c9_witness :
    (∃ m, (KGObject.initW ["name"] none none [("nmae", .str "x")] ⟨[], 0⟩).1
      = .error (.typeError m)) ∧
    (KGObject.initW ["name"] none none [("nmae", .str "x")] ⟨[], 0⟩).2.cache = [] :=
  c9_init_unknown_property ["name"] none none [("nmae", .str "x")] ⟨[], 0⟩
    "nmae" (.str "x") (List.mem_singleton.mpr rfl) (by decide)

/-- Freshly constructed object without an identifier, for the concrete
counterexamples and witnesses. -/
def freshObj : Obj :=
  { ref := 0, id := none, inst := none, name := "n", path := "p", props := [] }

/-- Transport whose filter query always returns two matches. -/
def twoMatchClient : Client Unit :=
  { filterQuery := fun _ _ _ => [⟨"a", 0⟩, ⟨"b", 0⟩],
    createNewInstance := fun _ _ => ⟨"c", 0⟩,
    updateInstance := fun _ => ⟨"u", 1⟩,
    instanceFromFullUri := fun u => ⟨u, 0⟩ }

/-- Transport whose filter query always returns exactly one match. -/
def oneMatchClient : Client Unit :=
  { filterQuery := fun _ _ _ => [⟨"idX", 0⟩],
    createNewInstance := fun _ _ => ⟨"c", 0⟩,
    updateInstance := fun _ => ⟨"u", 1⟩,
    instanceFromFullUri := fun u => ⟨u, 0⟩ }

/-- Transport whose filter query finds nothing, whose create returns a fresh
instance with identifier id1, and whose update bumps the revision of the
instance it is given. -/
def noMatchClient : Client Unit :=
  { filterQuery := fun _ _ _ => [],
    createNewInstance := fun _ _ => ⟨"id1", 0⟩,
    updateInstance := fun oi => match oi with
      | some i => ⟨i.id, i.rev + 1⟩
      | none => ⟨"u", 0⟩,
    instanceFromFullUri := fun u => ⟨u, 0⟩ }

/-- C3 (amended): exists returns True with no transport call when the
identifier is truthy; with the identifier unset it issues the name-based
filter query once; an empty response gives False with the object unchanged;
any non-empty response, a single match or several alike, makes the object
adopt the first match's identifier and gives True. -/
theorem c3_exists_behaviour (Data : Type) (client : Client Data) (o : Obj)
    (r : Instance) (rs : List Instance) :
    (idTruthy o.id = true → KGObject.exists client o = (true, o, [])) ∧
    (idTruthy o.id = false →
      client.filterQuery o.path ⟨"schema:name", "eq", o.name⟩ schemaContext = [] →
      KGObject.exists client o
        = (false, o,
           [.filterQueryCall o.path ⟨"schema:name", "eq", o.name⟩ schemaContext])) ∧
    (idTruthy o.id = false →
      client.filterQuery o.path ⟨"schema:name", "eq", o.name⟩ schemaContext = r :: rs →
      KGObject.exists client o
        = (true, { o with id := some r.id },
           [.filterQueryCall o.path ⟨"schema:name", "eq", o.name⟩ schemaContext])) := by
  refine ⟨?_, ?_, ?_⟩
  · intro h; simp [KGObject.exists, h]
  · intro h hq; simp [KGObject.exists, h, hq]
  · intro h hq; simp [KGObject.exists, h, hq]

/-- C3 witness: the amended theorem applied to a one-match transport and a
fresh object. -/
theorem c3_witness :
    KGObject.exists oneMatchClient freshObj
      = (true, { freshObj with id := some "idX" },
         [.filterQueryCall "p" ⟨"schema:name", "eq", "n"⟩ schemaContext]) :=
  (c3_exists_behaviour Unit oneMatchClient freshObj ⟨"idX", 0⟩ []).2.2 rfl rfl

/-- C3 counterexample: with two matches the claim demands False and no
adoption, but exists returns True and adopts the first match's identifier. -/
theorem c3_counterexample :
    (KGObject.exists twoMatchClient freshObj).1 = true ∧
    (KGObject.exists twoMatchClient freshObj).2.1.id = some "a" ∧
    freshObj.id = none := ⟨rfl, rfl, rfl⟩

/-- C4 (amended): saving with exists_ok false an object whose identifier is
unset but whose name matches existing resources raises ResourceExistsError
and issues no create call, but it does not leave the identifier untouched:
the exists check run before raising has already adopted the first match's
identifier. The cache is untouched. -/
theorem c4_save_not_exists_ok (Data : Type) (data : Data) (client : Client Data)
    (o : Obj) (c : Cache) (r : Instance) (rs : List Instance)
    (h0 : o.id = none)
    (hq : client.filterQuery o.path ⟨"schema:name", "eq", o.name⟩ schemaContext
      = r :: rs) :
    (KGObject._save data client false o c).error = some .resourceExistsError ∧
    createCount (KGObject._save data client false o c).events = 0 ∧
    (KGObject._save data client false o c).obj.id = some r.id ∧
    (KGObject._save data client false o c).cache = c := by
  simp [KGObject._save, h0, idTruthy, KGObject.exists, hq, createCount]

/-- C4 witness: the amended theorem applied to a one-match transport and a
fresh object. -/
theorem c4_witness :
    (KGObject._save () oneMatchClient false freshObj []).error
      = some .resourceExistsError ∧
    createCount (KGObject._save () oneMatchClient false freshObj []).events = 0 ∧
    (KGObject._save () oneMatchClient false freshObj []).obj.id = some "idX" ∧
    (KGObject._save () oneMatchClient false freshObj []).cache = [] :=
  c4_save_not_exists_ok Unit () oneMatchClient freshObj [] ⟨"idX", 0⟩ [] rfl rfl

/-- C4 counterexample: the raise and the absence of a create call hold, but
the identifier does not stay what it was: it changes from none to the
matched identifier, refuting the clause that a failed save leaves the
identifier exactly as before. -/
theorem c4_counterexample :
    (KGObject._save () oneMatchClient false freshObj []).error
      = some .resourceExistsError ∧
    createCount (KGObject._save () oneMatchClient false freshObj []).events = 0 ∧
    freshObj.id = none ∧
    (KGObject._save () oneMatchClient false freshObj []).obj.id = some "idX" ∧
    (KGObject._save () oneMatchClient false freshObj []).obj.id ≠ freshObj.id := by
  refine ⟨rfl, rfl, rfl, rfl, ?_⟩
  intro h
  rw [show (KGObject._save () oneMatchClient false freshObj []).obj.id = some "idX"
        from rfl] at h
  exact Option.noConfusion h

/-- C1 (amended): on a freshly constructed object without an identifier
whose name matches nothing in the store, saving twice with exists_ok true
issues exactly one create call, during the first save; but the second save
is not a no-op: it takes the update branch, issuing exactly one update call
and replacing the stored instance, while the identifier and the cache stay
as the first save left them. -/
theorem c1_save_twice (Data : Type) (data data2 : Data) (client : Client Data)
    (o : Obj) (c : Cache)
    (h0 : o.id = none)
    (hq : client.filterQuery o.path ⟨"schema:name", "eq", o.name⟩ schemaContext = [])
    (hcid : (client.createNewInstance o.path data).id.isEmpty = false) :
    (let s1 := KGObject._save data client true o c
     let s2 := KGObject._save data2 client true s1.obj s1.cache
     createCount s1.events = 1 ∧
       s2.events = [Event.updateCall s1.obj.inst] ∧
       createCount s2.events = 0 ∧
       s2.obj.id = s1.obj.id ∧
       s2.cache = s1.cache) := by
  simp only [KGObject._save, KGObject.exists, h0, idTruthy, hq]
  simp [createCount, hcid, idTruthy]

/-- C1 witness: the amended theorem applied to a no-match transport and a
fresh object. -/
theorem c1_witness :
    (let s1 := KGObject._save () noMatchClient true freshObj []
     let s2 := KGObject._save () noMatchClient true s1.obj s1.cache
     createCount s1.events = 1 ∧
       s2.events = [Event.updateCall s1.obj.inst] ∧
       createCount s2.events = 0 ∧
       s2.obj.id = s1.obj.id ∧
       s2.cache = s1.cache) :=
  c1_save_twice Unit () () noMatchClient freshObj [] rfl rfl rfl

/-- C1 counterexample: the two saves do issue exactly one create call, but
the second save performs an update transport call and changes the object's
stored instance, so it is neither free of transport calls nor
state-preserving, refuting the no-op clause. -/
theorem c1_counterexample :
    (let s1 := KGObject._save () noMatchClient true freshObj []
     let s2 := KGObject._save () noMatchClient true s1.obj s1.cache
     createCount (s1.events ++ s2.events) = 1 ∧
       s2.events = [Event.updateCall (some ⟨"id1", 0⟩)] ∧
       s2.events ≠ [] ∧
       s1.obj.inst = some ⟨"id1", 0⟩ ∧
       s2.obj.inst = some ⟨"id1", 1⟩ ∧
       s2.obj.inst ≠ s1.obj.inst) := by
  refine ⟨rfl, rfl, ?_, rfl, rfl, by decide⟩
  intro h
  rw [show (KGObject._save () noMatchClient true
        (KGObject._save () noMatchClient true freshObj []).obj
        (KGObject._save () noMatchClient true freshObj []).cache).events
      = [Event.updateCall (some ⟨"id1", 0⟩)] from rfl] at h
  exact List.noConfusion h

/-- C2: once the identity cache holds an object for identifier X, every
resolution path returns that exact in-memory instance: the caching factory
wrapper applied to a raw instance with at-id X (whatever factory it wraps),
proxy resolution of X (whatever loader it would use on a miss), and query
resolution whose listing returns exactly the raw instance with at-id X
(whatever factory the class wraps). -/
theorem c2_identity (Data : Type) (client : Client Data) (w : World) (X : String)
    (o : Obj) (i : Instance) (p : KGProxy) (q : KGQuery)
    (f g : Instance → World → Obj × World) (fromUri : String → World → Obj × World)
    (hc : cacheFind w.cache (some X) = some o)
    (hi : i.id = X) (hp : p.id = X) :
    (cacheWrap f i w).1 = o ∧
    (KGProxy.resolve fromUri p w).1 = o ∧
    (client.filterQuery q.clsPath q.filter q.context = [i] →
      (KGQuery.resolve (cacheWrap g) client q w).1 = QueryResult.single o) := by
  refine ⟨?_, ?_, ?_⟩
  · simp [cacheWrap, hi, hc]
  · simp [KGProxy.resolve, hp, hc]
  · intro hq
    simp [KGQuery.resolve, hq, mapFactory, cacheWrap, hi, hc]

/-- Object sitting in the identity cache under identifier X, for the
concrete C2 and C6 scenarios. -/
def objX : Obj :=
  { ref := 5, id := some "X", inst := none, name := "", path := "", props := [] }

/-- World whose identity cache already holds objX under X. -/
def wX : World := ⟨[(some "X", objX)], 6⟩

/-- Transport whose filter query returns exactly the raw instance with
at-id X. -/
def oneXClient : Client Unit :=
  { filterQuery := fun _ _ _ => [⟨"X", 0⟩],
    createNewInstance := fun _ _ => ⟨"c", 0⟩,
    updateInstance := fun _ => ⟨"u", 0⟩,
    instanceFromFullUri := fun u => ⟨u, 0⟩ }

/-- A query reference used by the concrete C2 and C6 scenarios. -/
def qX : KGQuery := ⟨"pp", ⟨"a", "b", "c"⟩, []⟩

/-- C2 witness: all three resolution paths on the cached identifier X
return the cached object itself. -/
theorem c2_witness :
    (cacheWrap from_kg_instance ⟨"X", 0⟩ wX).1 = objX ∧
    (KGProxy.resolve (KGObject.from_uri from_kg_instance oneXClient) ⟨"C", "X"⟩ wX).1
      = objX ∧
    (KGQuery.resolve (cacheWrap from_kg_instance) oneXClient qX wX).1
      = QueryResult.single objX := by
  have h := c2_identity Unit oneXClient wX "X" objX ⟨"X", 0⟩ ⟨"C", "X"⟩ qX
    from_kg_instance from_kg_instance
    (KGObject.from_uri from_kg_instance oneXClient) rfl rfl rfl
  exact ⟨h.1, h.2.1, h.2.2 rfl⟩

/-- Finding in a cache after one assignment: the assigned key returns the
assigned object, any other key sees the previous cache. -/
theorem cacheFind_insert (c : Cache) (k k' : Option String) (v : Obj) :
    cacheFind (cacheInsert c k v) k' = if k = k' then some v else cacheFind c k' := rfl

/-- The empty identity cache is well formed. -/
theorem emptyCacheWF : cacheWF [] := by
  intro k o h
  exact Option.noConfusion h

/-- Assigning an object under its own id preserves cache well-formedness. -/
theorem cacheInsert_wf (c : Cache) (k : Option String) (v : Obj)
    (hwf : cacheWF c) (hv : v.id = k) : cacheWF (cacheInsert c k v) := by
  intro k' o h
  rw [cacheFind_insert] at h
  by_cases hk : k = k'
  · rw [if_pos hk] at h
    cases h
    exact hk ▸ hv
  · rw [if_neg hk] at h
    exact hwf k' o h

/-- On a well-formed cache, the cache-wrapped fresh factory returns an
object whose id attribute is the at-id of the raw instance, on a hit and on
a miss alike. -/
theorem cacheWrap_fresh_id (w : World) (i : Instance) (hwf : cacheWF w.cache) :
    (cacheWrap from_kg_instance i w).1.id = some i.id := by
  cases h : cacheFind w.cache (some i.id) with
  | some o =>
    simpa [cacheWrap, h] using hwf _ _ h
  | none =>
    simp [cacheWrap, h, from_kg_instance]

/-- One cache-wrapped factory step preserves every existing cache binding. -/
theorem cacheWrap_fresh_mono (w : World) (i : Instance) (k : Option String) (x : Obj)
    (hx : cacheFind w.cache k = some x) :
    cacheFind (cacheWrap from_kg_instance i w).2.cache k = some x := by
  cases h : cacheFind w.cache (some i.id) with
  | some o => simp [cacheWrap, h, hx]
  | none =>
    simp only [cacheWrap, h, from_kg_instance]
    rw [cacheFind_insert]
    by_cases hk : some i.id = k
    · rw [← hk] at hx
      rw [h] at hx
      exact Option.noConfusion hx
    · rw [if_neg hk]
      exact hx

/-- One cache-wrapped factory step preserves cache well-formedness. -/
theorem cacheWrap_fresh_wf (w : World) (i : Instance) (hwf : cacheWF w.cache) :
    cacheWF (cacheWrap from_kg_instance i w).2.cache := by
  cases h : cacheFind w.cache (some i.id) with
  | some o => simpa [cacheWrap, h] using hwf
  | none =>
    simp only [cacheWrap, h, from_kg_instance]
    exact cacheInsert_wf _ _ _ hwf rfl

/-- After one cache-wrapped factory step the returned object is the cached
binding for its own id. -/
theorem cacheWrap_fresh_found (w : World) (i : Instance) (hwf : cacheWF w.cache) :
    cacheFind (cacheWrap from_kg_instance i w).2.cache
        (cacheWrap from_kg_instance i w).1.id
      = some (cacheWrap from_kg_instance i w).1 := by
  cases h : cacheFind w.cache (some i.id) with
  | some o =>
    have hid : o.id = some i.id := hwf _ _ h
    simp [cacheWrap, h, hid]
  | none =>
    simp only [cacheWrap, h, from_kg_instance]
    rw [cacheFind_insert, if_pos rfl]

/-- Threading the cache-wrapped fresh factory over a list preserves every
existing cache binding. -/
theorem mapFactory_fresh_mono (is : List Instance) (w : World) (k : Option String)
    (x : Obj) (hx : cacheFind w.cache k = some x) :
    cacheFind (mapFactory (cacheWrap from_kg_instance) is w).2.cache k = some x := by
  induction is generalizing w with
  | nil => simpa [mapFactory] using hx
  | cons i rest ih =>
    simp only [mapFactory]
    exact ih _ (cacheWrap_fresh_mono w i k x hx)

/-- Threading the cache-wrapped fresh factory over a list preserves cache
well-formedness. -/
theorem mapFactory_fresh_wf (is : List Instance) (w : World) (hwf : cacheWF w.cache) :
    cacheWF (mapFactory (cacheWrap from_kg_instance) is w).2.cache := by
  induction is generalizing w with
  | nil => simpa [mapFactory] using hwf
  | cons i rest ih =>
    simp only [mapFactory]
    exact ih _ (cacheWrap_fresh_wf w i hwf)

/-- After threading the cache-wrapped fresh factory over a list starting
from a well-formed cache, every object of the resulting list is the cached
binding for its own id. -/
theorem mapFactory_fresh_found (is : List Instance) (w : World) (hwf : cacheWF w.cache) :
    ∀ o ∈ (mapFactory (cacheWrap from_kg_instance) is w).1,
      cacheFind (mapFactory (cacheWrap from_kg_instance) is w).2.cache o.id = some o := by
  induction is generalizing w with
  | nil =>
    intro o ho
    simp [mapFactory] at ho
  | cons i rest ih =>
    intro o ho
    simp only [mapFactory, List.mem_cons] at ho
    rcases ho with rfl | ho
    · exact mapFactory_fresh_mono rest _ _ _ (cacheWrap_fresh_found w i hwf)
    · exact ih _ (cacheWrap_fresh_wf w i hwf) o ho

/-- Folding dict assignments of objects under their own ids over a cache in
which each of these objects is already its id's binding keeps any such
binding intact. -/
theorem foldInsert_find (os : List Obj) (c : Cache) (o : Obj)
    (ho : cacheFind c o.id = some o)
    (hos : ∀ x ∈ os, cacheFind c x.id = some x) :
    cacheFind (os.foldl (fun c x => cacheInsert c x.id x) c) o.id = some o := by
  induction os generalizing c with
  | nil => simpa using ho
  | cons y ys ih =>
    simp only [List.foldl_cons]
    apply ih
    · rw [cacheFind_insert]
      by_cases hy : y.id = o.id
      · rw [if_pos hy]
        have hyy := hos y (List.mem_cons_self y ys)
        rw [hy, ho] at hyy
        exact hyy.symm
      · rw [if_neg hy]
        exact ho
    · intro x hx
      rw [cacheFind_insert]
      by_cases hy : y.id = x.id
      · rw [if_pos hy]
        have h1 := hos y (List.mem_cons_self y ys)
        have h2 := hos x (List.mem_cons.mpr (Or.inr hx))
        rw [hy, h2] at h1
        exact h1.symm
      · rw [if_neg hy]
        exact hos x (List.mem_cons.mpr (Or.inr hx))

/-- C6: query resolution issues the filtered listing exactly once; it maps
every raw result through the class's caching factory and leaves every
resulting object bound to its own id in the identity cache; a singleton
listing collapses to the bare object, and any other count, the empty and
the two-or-more case alike, returns the whole object list. -/
theorem c6_query_resolve (Data : Type) (client : Client Data) (q : KGQuery)
    (w : World) (i : Instance) (hwf : cacheWF w.cache) :
    (KGQuery.resolve (cacheWrap from_kg_instance) client q w).2.2
      = [Event.filterQueryCall q.clsPath q.filter q.context] ∧
    (client.filterQuery q.clsPath q.filter q.context = [i] →
      (KGQuery.resolve (cacheWrap from_kg_instance) client q w).1
        = QueryResult.single (cacheWrap from_kg_instance i w).1) ∧
    ((client.filterQuery q.clsPath q.filter q.context).length ≠ 1 →
      (KGQuery.resolve (cacheWrap from_kg_instance) client q w).1
        = QueryResult.several
            (mapFactory (cacheWrap from_kg_instance)
              (client.filterQuery q.clsPath q.filter q.context) w).1) ∧
    (∀ o ∈ (mapFactory (cacheWrap from_kg_instance)
              (client.filterQuery q.clsPath q.filter q.context) w).1,
      cacheFind (KGQuery.resolve (cacheWrap from_kg_instance) client q w).2.1.cache o.id
        = some o) := by
  refine ⟨rfl, ?_, ?_, ?_⟩
  · intro hq
    simp [KGQuery.resolve, hq, mapFactory]
  · intro hlen
    simp [KGQuery.resolve, hlen]
  · intro o ho
    have h1 := mapFactory_fresh_found
      (client.filterQuery q.clsPath q.filter q.context) w hwf
    exact foldInsert_find _ _ o (h1 o ho) h1

/-- C6 witness: the theorem applied to a one-match transport over the empty
cache: one listing call, the singleton collapse, and the result cached. -/
theorem c6_witness :
    (KGQuery.resolve (cacheWrap from_kg_instance) oneXClient qX ⟨[], 0⟩).2.2
      = [Event.filterQueryCall "pp" ⟨"a", "b", "c"⟩ []] ∧
    (KGQuery.resolve (cacheWrap from_kg_instance) oneXClient qX ⟨[], 0⟩).1
      = QueryResult.single (cacheWrap from_kg_instance ⟨"X", 0⟩ ⟨[], 0⟩).1 := by
  have h := c6_query_resolve Unit oneXClient qX ⟨[], 0⟩ ⟨"X", 0⟩ emptyCacheWF
  exact ⟨h.1, h.2.1 rfl⟩

end Nar
